import Mathlib

/-!
Verification of the design-token generator and its export pipeline.

The development shallowly embeds the data model and the pure functions of
the repository (palette generation, the five exporters, the component
template registry, the component formatter and the form-state updates).
JavaScript objects with a fixed key set become Lean structures together
with an `entries` list that mirrors `Object.entries` iteration order
(string keys in insertion order; integer-like keys in ascending numeric
order, which coincides with insertion order everywhere in this code base).
`Record<string, boolean>` props objects become ordered association lists.
String building (`+=` accumulation, `join`, `JSON.stringify(·, null, 2)`)
is reproduced by explicit concatenation combinators.
-/

namespace DesignStudio

/-! ### String concatenation machinery -/

/-- `hay` contains `needle` as a contiguous substring. -/
def strContains (hay needle : String) : Prop :=
  ∃ pre post : String, hay = pre ++ needle ++ post

theorem strData_append (a b : String) : (a ++ b).data = a.data ++ b.data := by
  cases a; cases b; rfl

theorem strEq_of_data (a b : String) (h : a.data = b.data) : a = b := by
  cases a; cases b; exact congrArg String.mk h

theorem strAppend_assoc (a b c : String) : a ++ b ++ c = a ++ (b ++ c) := by
  apply strEq_of_data; simp [strData_append]

theorem strAppend_empty (a : String) : a ++ "" = a := by
  apply strEq_of_data; simp [strData_append]

theorem strEmpty_append (a : String) : "" ++ a = a := by
  apply strEq_of_data; simp [strData_append]

theorem strContains_self (s : String) : strContains s s :=
  ⟨"", "", by rw [strEmpty_append, strAppend_empty]⟩

theorem strContains_appL {a t : String} (b : String) (h : strContains a t) :
    strContains (a ++ b) t := by
  obtain ⟨p, q, rfl⟩ := h
  exact ⟨p, q ++ b, by rw [strAppend_assoc, strAppend_assoc]⟩

theorem strContains_appR {b t : String} (a : String) (h : strContains b t) :
    strContains (a ++ b) t := by
  obtain ⟨p, q, rfl⟩ := h
  exact ⟨a ++ p, q, by simp [strAppend_assoc]⟩

theorem strContains_trans {a b c : String} (h₁ : strContains a b)
    (h₂ : strContains b c) : strContains a c := by
  obtain ⟨p, q, rfl⟩ := h₁
  exact strContains_appL q (strContains_appR p h₂)

theorem strContains_mid (pre t post : String) : strContains (pre ++ t ++ post) t :=
  ⟨pre, post, rfl⟩

/-- Executable check that `pre` is a leading block of `l`. -/
def hasPre : List Char → List Char → Bool
  | [], _ => true
  | _ :: _, [] => false
  | a :: as, b :: bs => a == b && hasPre as bs

/-- Executable substring check on character lists. -/
def charsContain (needle : List Char) : List Char → Bool
  | [] => needle.isEmpty
  | c :: t => hasPre needle (c :: t) || charsContain needle t

/-- Executable form of `strContains`. -/
def strContainsB (hay needle : String) : Bool :=
  charsContain needle.data hay.data

theorem hasPre_iff (n : List Char) : ∀ h : List Char,
    hasPre n h = true ↔ ∃ t, h = n ++ t := by
  induction n with
  | nil => intro h; simp [hasPre]
  | cons a as ih =>
    intro h
    cases h with
    | nil => simp [hasPre]
    | cons b bs =>
      simp only [hasPre, Bool.and_eq_true, beq_iff_eq, ih bs]
      constructor
      · rintro ⟨rfl, t, rfl⟩; exact ⟨t, rfl⟩
      · rintro ⟨t, ht⟩
        injection ht with h1 h2
        exact ⟨h1.symm, t, h2⟩

theorem charsContain_iff (n : List Char) : ∀ h : List Char,
    charsContain n h = true ↔ ∃ p t, h = p ++ n ++ t := by
  intro h
  induction h with
  | nil =>
    simp only [charsContain, List.isEmpty_iff]
    constructor
    · rintro rfl; exact ⟨[], [], rfl⟩
    · rintro ⟨p, t, ht⟩
      rcases List.append_eq_nil.mp ht.symm with ⟨h1, h2⟩
      exact (List.append_eq_nil.mp h1).2
  | cons c cs ih =>
    simp only [charsContain, Bool.or_eq_true, hasPre_iff, ih]
    constructor
    · rintro (⟨t, ht⟩ | ⟨p, t, ht⟩)
      · exact ⟨[], t, by simpa using ht⟩
      · exact ⟨c :: p, t, by simp [ht]⟩
    · rintro ⟨p, t, ht⟩
      cases p with
      | nil => exact Or.inl ⟨t, by simpa using ht⟩
      | cons x xs =>
        injection ht with h1 h2
        exact Or.inr ⟨xs, t, h2⟩

theorem strContains_iff (hay needle : String) :
    strContains hay needle ↔ strContainsB hay needle = true := by
  rw [strContainsB, charsContain_iff]
  constructor
  · rintro ⟨p, t, rfl⟩
    exact ⟨p.data, t.data, by simp [strData_append]⟩
  · rintro ⟨p, t, ht⟩
    refine ⟨⟨p⟩, ⟨t⟩, strEq_of_data _ _ ?_⟩
    simpa [strData_append] using ht

/-! ### Ordered-list combinators mirroring JS iteration -/

/-- Sequential `+=` accumulation of a list of string pieces. -/
def concatList : List String → String
  | [] => ""
  | s :: rest => s ++ concatList rest

/-- `Array.prototype.join(sep)`. -/
def joinSep (sep : String) : List String → String
  | [] => ""
  | [s] => s
  | s :: t :: rest => s ++ sep ++ joinSep sep (t :: rest)

/-- `forEach((x, index) => ...)` collecting one result per element,
starting at index `start`. -/
def mapIdx {α β : Type} (f : Nat → α → β) : Nat → List α → List β
  | _, [] => []
  | i, a :: rest => f i a :: mapIdx f (i + 1) rest

theorem concatList_append (a b : List String) :
    concatList (a ++ b) = concatList a ++ concatList b := by
  induction a with
  | nil => simp [concatList, strEmpty_append]
  | cons s rest ih => simp [concatList, ih, strAppend_assoc]

theorem mem_mapIdx {α β : Type} (f : Nat → α → β) :
    ∀ (l : List α) (start i : Nat) (h : i < l.length),
      f (start + i) (l.get ⟨i, h⟩) ∈ mapIdx f start l := by
  intro l
  induction l with
  | nil => intro start i h; exact absurd h (by simp)
  | cons a rest ih =>
    intro start i h
    cases i with
    | zero => simp [mapIdx]
    | succ j =>
      have hj : j < rest.length := Nat.lt_of_succ_lt_succ h
      have := ih (start + 1) j hj
      simp only [mapIdx, List.get, List.mem_cons]
      right
      have harith : start + 1 + j = start + (j + 1) := by omega
      rw [harith] at this
      exact this

theorem strContains_concatList {x : String} :
    ∀ l : List String, x ∈ l → strContains (concatList l) x := by
  intro l
  induction l with
  | nil => intro h; exact absurd h (by simp)
  | cons s rest ih =>
    intro h
    rcases List.mem_cons.mp h with rfl | hmem
    · exact strContains_appL _ (strContains_self x)
    · exact strContains_appR _ (ih hmem)

theorem strContains_joinSep {x : String} (sep : String) :
    ∀ l : List String, x ∈ l → strContains (joinSep sep l) x := by
  intro l
  induction l with
  | nil => intro h; exact absurd h (by simp)
  | cons s rest ih =>
    intro h
    cases rest with
    | nil =>
      rcases List.mem_cons.mp h with rfl | hmem
      · exact strContains_self x
      · exact absurd hmem (by simp)
    | cons t rest' =>
      rcases List.mem_cons.mp h with rfl | hmem
      · exact strContains_appL _ (strContains_appL _ (strContains_self x))
      · exact strContains_appR _ (ih hmem)

/-! ### `JSON.stringify(·, null, 2)` emulation

Every object serialized by this code base has a statically known shape, so
pretty printing is reproduced by a non-recursive object builder whose field
values are pre-rendered at the correct indentation level. -/

/-- Lowercase hex digit, as produced by `JSON.stringify` unicode escapes. -/
def hexDigit (n : Nat) : String :=
  if n < 10 then toString n
  else if n = 10 then "a" else if n = 11 then "b" else if n = 12 then "c"
  else if n = 13 then "d" else if n = 14 then "e" else "f"

/-- Escape of a single character inside a JSON string literal. -/
def jsonEscapeChar (c : Char) : String :=
  if c = '"' then "\\\"" else if c = '\\' then "\\\\"
  else if c = '\n' then "\\n" else if c = '\r' then "\\r"
  else if c = '\t' then "\\t" else if c = '\x08' then "\\b"
  else if c = '\x0c' then "\\f"
  else if c.toNat < 0x20 then
    "\\u00" ++ hexDigit (c.toNat / 16) ++ hexDigit (c.toNat % 16)
  else String.singleton c

def jsonEscape (s : String) : String :=
  concatList (s.data.map jsonEscapeChar)

/-- A JSON string literal. -/
def jsonStr (s : String) : String := "\"" ++ jsonEscape s ++ "\""

def spaces (n : Nat) : String := String.mk (List.replicate n ' ')

/-- Rendering of one `"key": value` member line at indentation `n + 2`. -/
def jsonField (n : Nat) (f : String × String) : String :=
  spaces (n + 2) ++ jsonStr f.1 ++ ": " ++ f.2

/-- An object whose opening brace sits at indentation level `n`; field
values must already be rendered relative to level `n + 2`. -/
def jsonObj (n : Nat) (fields : List (String × String)) : String :=
  match fields with
  | [] => "\x7b\x7d"
  | _ => "\x7b\n" ++ joinSep ",\n" (fields.map (jsonField n)) ++ "\n" ++ spaces n ++ "\x7d"

/-- An array whose opening bracket sits at indentation level `n`. -/
def jsonArr (n : Nat) (items : List String) : String :=
  match items with
  | [] => "[]"
  | _ => "[\n" ++ joinSep ",\n" (items.map (fun s => spaces (n + 2) ++ s)) ++
      "\n" ++ spaces n ++ "]"

theorem strContains_jsonField {fields : List (String × String)} {k v : String}
    (n : Nat) (h : (k, v) ∈ fields) :
    strContains (jsonObj n fields) (jsonStr k ++ ": " ++ v) := by
  match fields, h with
  | f :: rest, h =>
    have hline : jsonField n (k, v) ∈ (f :: rest).map (jsonField n) :=
      List.mem_map_of_mem _ h
    have h1 : strContains (joinSep ",\n" ((f :: rest).map (jsonField n)))
        (jsonField n (k, v)) := strContains_joinSep _ _ hline
    have h2 : strContains (jsonField n (k, v)) (jsonStr k ++ ": " ++ v) := by
      unfold jsonField
      exact ⟨spaces (n + 2), "", by simp [strAppend_assoc, strAppend_empty]⟩
    have h3 := strContains_trans h1 h2
    exact strContains_appL _ (strContains_appL _ (strContains_appL _
      (strContains_appR _ h3)))

theorem strContains_jsonValue {fields : List (String × String)} {k v : String}
    (n : Nat) (h : (k, v) ∈ fields) : strContains (jsonObj n fields) v := by
  refine strContains_trans (strContains_jsonField n h) ?_
  exact ⟨jsonStr k ++ ": ", "", by simp [strAppend_assoc, strAppend_empty]⟩

/-! ### Data model

`interface ColorShade` / `ColorPalette` / `TypographyScale` /
`DesignSystem` from `DesignSystemGenerator.tsx`.  Each structure gets an
`entries` list reproducing `Object.entries` iteration order. -/

structure ColorShade where
  c50 : String
  c100 : String
  c200 : String
  c300 : String
  c400 : String
  c500 : String
  c600 : String
  c700 : String
  c800 : String
  c900 : String
deriving DecidableEq

def ColorShade.entries (s : ColorShade) : List (String × String) :=
  [("50", s.c50), ("100", s.c100), ("200", s.c200), ("300", s.c300),
   ("400", s.c400), ("500", s.c500), ("600", s.c600), ("700", s.c700),
   ("800", s.c800), ("900", s.c900)]

structure ColorPalette where
  primary : ColorShade
  secondary : ColorShade
  accent : ColorShade
  neutral : ColorShade
  success : ColorShade
  warning : ColorShade
  error : ColorShade
deriving DecidableEq

def ColorPalette.entries (p : ColorPalette) : List (String × ColorShade) :=
  [("primary", p.primary), ("secondary", p.secondary), ("accent", p.accent),
   ("neutral", p.neutral), ("success", p.success), ("warning", p.warning),
   ("error", p.error)]

structure TypographyEntry where
  size : String
  lineHeight : String
  weight : String
deriving DecidableEq

structure TypographyScale where
  xs : TypographyEntry
  sm : TypographyEntry
  base : TypographyEntry
  lg : TypographyEntry
  xl : TypographyEntry
  xl2 : TypographyEntry
  xl3 : TypographyEntry
  xl4 : TypographyEntry
  xl5 : TypographyEntry
deriving DecidableEq

def TypographyScale.entries (t : TypographyScale) :
    List (String × TypographyEntry) :=
  [("xs", t.xs), ("sm", t.sm), ("base", t.base), ("lg", t.lg), ("xl", t.xl),
   ("2xl", t.xl2), ("3xl", t.xl3), ("4xl", t.xl4), ("5xl", t.xl5)]

structure DesignSystem where
  name : String
  colors : ColorPalette
  typography : TypographyScale
  spacing : List String
  borderRadius : List String
  fontFamily : String
deriving DecidableEq

/-! ### Palette generator (`DesignSystemGenerator.tsx`, lines 57–111) -/

/-- The `hsl(H, S%, L%)` template string. -/
def hslString (h s l : Int) : String :=
  "hsl(" ++ toString h ++ ", " ++ toString s ++ "%, " ++ toString l ++ "%)"

def generateColorShade (baseHue saturation : Int) : ColorShade where
  c50 := "hsl(" ++ toString baseHue ++ ", " ++
    toString (max (saturation - 40) 10) ++ "%, 95%)"
  c100 := "hsl(" ++ toString baseHue ++ ", " ++
    toString (max (saturation - 30) 15) ++ "%, 90%)"
  c200 := "hsl(" ++ toString baseHue ++ ", " ++
    toString (max (saturation - 20) 20) ++ "%, 80%)"
  c300 := "hsl(" ++ toString baseHue ++ ", " ++
    toString (max (saturation - 10) 25) ++ "%, 70%)"
  c400 := "hsl(" ++ toString baseHue ++ ", " ++ toString saturation ++ "%, 60%)"
  c500 := "hsl(" ++ toString baseHue ++ ", " ++ toString saturation ++ "%, 50%)"
  c600 := "hsl(" ++ toString baseHue ++ ", " ++ toString saturation ++ "%, 40%)"
  c700 := "hsl(" ++ toString baseHue ++ ", " ++
    toString (min (saturation + 10) 100) ++ "%, 30%)"
  c800 := "hsl(" ++ toString baseHue ++ ", " ++
    toString (min (saturation + 20) 100) ++ "%, 20%)"
  c900 := "hsl(" ++ toString baseHue ++ ", " ++
    toString (min (saturation + 30) 100) ++ "%, 10%)"

/-- `generateRandomPalette` with its single entropy draw
`Math.floor(Math.random() * 360)` made an explicit parameter. -/
def generateRandomPalette (primaryHue : Int) : ColorPalette :=
  let secondaryHue := (primaryHue + 180) % 360
  let accentHue := (primaryHue + 120) % 360
  { primary := generateColorShade primaryHue 70
    secondary := generateColorShade secondaryHue 60
    accent := generateColorShade accentHue 80
    neutral := generateColorShade 0 5
    success := generateColorShade 120 60
    warning := generateColorShade 45 80
    error := generateColorShade 0 70 }

def defaultTypography : TypographyScale where
  xs := ⟨"0.75rem", "1rem", "400"⟩
  sm := ⟨"0.875rem", "1.25rem", "400"⟩
  base := ⟨"1rem", "1.5rem", "400"⟩
  lg := ⟨"1.125rem", "1.75rem", "400"⟩
  xl := ⟨"1.25rem", "1.75rem", "500"⟩
  xl2 := ⟨"1.5rem", "2rem", "500"⟩
  xl3 := ⟨"1.875rem", "2.25rem", "600"⟩
  xl4 := ⟨"2.25rem", "2.5rem", "600"⟩
  xl5 := ⟨"3rem", "1", "700"⟩

def fontFamilies : List String :=
  ["Inter, sans-serif", "Roboto, sans-serif", "Open Sans, sans-serif",
   "Lato, sans-serif", "Poppins, sans-serif", "Montserrat, sans-serif",
   "Source Sans Pro, sans-serif", "Nunito, sans-serif",
   "Playfair Display, serif", "Merriweather, serif"]

def defaultSpacing : List String :=
  ["4px", "8px", "12px", "16px", "20px", "24px", "32px", "40px", "48px", "64px"]

def defaultBorderRadius : List String :=
  ["0px", "4px", "8px", "12px", "16px", "24px"]

/-- The initial `useState` value of `DesignSystemGenerator`, with the random
palette hue made explicit. -/
def initialDesignSystem (primaryHue : Int) : DesignSystem where
  name := "My Design System"
  colors := generateRandomPalette primaryHue
  typography := defaultTypography
  spacing := defaultSpacing
  borderRadius := defaultBorderRadius
  fontFamily := "Inter, sans-serif"

/-! ### Exporters -/

/-- Key/value insertion sequence of the flat `variables` object built by
`generateFigmaVariables` (`DesignSystemGenerator.tsx`, lines 146–176). -/
def figmaEntries (ds : DesignSystem) : List (String × String) :=
  (ds.colors.entries.flatMap fun p =>
    p.2.entries.map fun q => ("color/" ++ p.1 ++ "/" ++ q.1, q.2)) ++
  (ds.typography.entries.flatMap fun p =>
    [("typography/" ++ p.1 ++ "/size", p.2.size),
     ("typography/" ++ p.1 ++ "/lineHeight", p.2.lineHeight),
     ("typography/" ++ p.1 ++ "/weight", p.2.weight)]) ++
  mapIdx (fun i v => ("spacing/" ++ toString (i + 1), v)) 0 ds.spacing ++
  mapIdx (fun i v => ("radius/" ++ toString i, v)) 0 ds.borderRadius ++
  [("font/family", ds.fontFamily)]

/-- `generateFigmaVariables`: `JSON.stringify(variables, null, 2)`. -/
def generateFigmaVariables (ds : DesignSystem) : String :=
  jsonObj 0 (figmaEntries ds |>.map fun p => (p.1, jsonStr p.2))

/-- `generateCSS` (`DesignSystemGenerator.tsx`, lines 178–209): sequential
`css +=` accumulation, section by section. -/
def generateCSS (ds : DesignSystem) : String :=
  ":root \x7b\n" ++
  concatList (ds.colors.entries.map fun p =>
    concatList (p.2.entries.map fun q =>
      "  --" ++ p.1 ++ "-" ++ q.1 ++ ": " ++ q.2 ++ ";\n")) ++
  concatList (ds.typography.entries.map fun p =>
    "  --text-" ++ p.1 ++ ": " ++ p.2.size ++ ";\n" ++
    ("  --leading-" ++ p.1 ++ ": " ++ p.2.lineHeight ++ ";\n") ++
    ("  --weight-" ++ p.1 ++ ": " ++ p.2.weight ++ ";\n")) ++
  concatList (mapIdx (fun i v =>
    "  --spacing-" ++ toString (i + 1) ++ ": " ++ v ++ ";\n") 0 ds.spacing) ++
  concatList (mapIdx (fun i v =>
    "  --radius-" ++ toString i ++ ": " ++ v ++ ";\n") 0 ds.borderRadius) ++
  ("  --font-family: " ++ ds.fontFamily ++ ";\n") ++
  "\x7d\n"

/-- The `spacing` object of the Tailwind config: `reduce` assigning
`acc[index + 1] = space` (`App.tsx`, lines 101–104). -/
def tailwindSpacingFields (ds : DesignSystem) : List (String × String) :=
  mapIdx (fun i v => (toString (i + 1), jsonStr v)) 0 ds.spacing

/-- The `borderRadius` object: `acc[index] = radius` (`App.tsx`, 105–108). -/
def tailwindRadiusFields (ds : DesignSystem) : List (String × String) :=
  mapIdx (fun i v => (toString i, jsonStr v)) 0 ds.borderRadius

/-- The `theme.extend` object of `generateTailwindConfig`, pre-rendered. -/
def tailwindExtendFields (ds : DesignSystem) : List (String × String) :=
  [("colors", jsonObj 6 (ds.colors.entries.map fun p =>
      (p.1, jsonObj 8 (p.2.entries.map fun q => (q.1, jsonStr q.2))))),
   ("fontFamily", jsonObj 6 [("sans", jsonArr 8 [jsonStr ds.fontFamily])]),
   ("fontSize", jsonObj 6 (ds.typography.entries.map fun p =>
      (p.1, jsonObj 8 [("size", jsonStr p.2.size),
                       ("lineHeight", jsonStr p.2.lineHeight),
                       ("weight", jsonStr p.2.weight)]))),
   ("spacing", jsonObj 6 (tailwindSpacingFields ds)),
   ("borderRadius", jsonObj 6 (tailwindRadiusFields ds))]

/-- `generateTailwindConfig` (`App.tsx`, lines 83–114):
`JSON.stringify(config, null, 2)`. -/
def generateTailwindConfig (ds : DesignSystem) : String :=
  jsonObj 0 [("theme", jsonObj 2 [("extend", jsonObj 4 (tailwindExtendFields ds))])]

/-- `generateSCSSVariables` (`App.tsx`, lines 116–149). -/
def generateSCSSVariables (ds : DesignSystem) : String :=
  ("// " ++ ds.name ++ " - Design System Variables\n\n") ++
  "// Colors\n" ++
  concatList (ds.colors.entries.map fun p =>
    concatList (p.2.entries.map fun q =>
      "$" ++ p.1 ++ "-" ++ q.1 ++ ": " ++ q.2 ++ ";\n")) ++
  "\n// Typography\n" ++
  ("$font-family-base: " ++ ds.fontFamily ++ ";\n") ++
  concatList (ds.typography.entries.map fun p =>
    "$font-size-" ++ p.1 ++ ": " ++ p.2.size ++ ";\n" ++
    ("$line-height-" ++ p.1 ++ ": " ++ p.2.lineHeight ++ ";\n") ++
    ("$font-weight-" ++ p.1 ++ ": " ++ p.2.weight ++ ";\n")) ++
  "\n// Spacing\n" ++
  concatList (mapIdx (fun i v =>
    "$spacing-" ++ toString (i + 1) ++ ": " ++ v ++ ";\n") 0 ds.spacing) ++
  "\n// Border Radius\n" ++
  concatList (mapIdx (fun i v =>
    "$border-radius-" ++ toString i ++ ": " ++ v ++ ";\n") 0 ds.borderRadius)

/-- The `tokens.global.spacing` object of `generateTokensStudio`:
`tokens.global.spacing[index + 1] = { value, type: 'spacing' }`. -/
def tokensSpacingFields (ds : DesignSystem) : List (String × String) :=
  mapIdx (fun i v =>
    (toString (i + 1),
     jsonObj 6 [("value", jsonStr v), ("type", jsonStr "spacing")])) 0 ds.spacing

/-- `tokens.global.borderRadius[index] = { value, type: 'borderRadius' }`. -/
def tokensRadiusFields (ds : DesignSystem) : List (String × String) :=
  mapIdx (fun i v =>
    (toString i,
     jsonObj 6 [("value", jsonStr v), ("type", jsonStr "borderRadius")]))
    0 ds.borderRadius

/-- The four sub-namespaces of `tokens.global`, pre-rendered. -/
def tokensGlobalFields (ds : DesignSystem) : List (String × String) :=
  [("colors", jsonObj 4 (ds.colors.entries.map fun p =>
      (p.1, jsonObj 6 (p.2.entries.map fun q =>
        (q.1, jsonObj 8 [("value", jsonStr q.2), ("type", jsonStr "color")]))))),
   ("typography", jsonObj 4 (ds.typography.entries.map fun p =>
      (p.1, jsonObj 6
        [("value", jsonObj 8
           [("fontSize", jsonStr p.2.size),
            ("lineHeight", jsonStr p.2.lineHeight),
            ("fontWeight", jsonStr p.2.weight),
            ("fontFamily", jsonStr ds.fontFamily)]),
         ("type", jsonStr "typography")]))),
   ("spacing", jsonObj 4 (tokensSpacingFields ds)),
   ("borderRadius", jsonObj 4 (tokensRadiusFields ds))]

/-- `generateTokensStudio` (`App.tsx`, lines 151–202):
`JSON.stringify(tokens, null, 2)`. -/
def generateTokensStudio (ds : DesignSystem) : String :=
  jsonObj 0 [("global", jsonObj 2 (tokensGlobalFields ds))]

/-! ### Component generator (`ComponentGenerator.tsx`) -/

structure ComponentTemplate where
  variants : List String
  sizes : List String
  defaultText : String
  props : List String
deriving DecidableEq

/-- The static `componentTemplates` registry, keys in declaration order. -/
def componentTemplates : List (String × ComponentTemplate) :=
  [("button", ⟨["primary", "secondary", "outline", "destructive"],
               ["sm", "md", "lg"], "Click me", ["disabled", "loading"]⟩),
   ("card", ⟨["default", "outlined"], ["sm", "md", "lg"], "Card Title",
             ["shadow", "hover"]⟩),
   ("input", ⟨["default", "filled"], ["sm", "md", "lg"], "Enter text...",
              ["disabled", "error"]⟩),
   ("badge", ⟨["default", "secondary", "destructive", "outline"],
              ["sm", "md", "lg"], "Badge", ["rounded"]⟩),
   ("alert", ⟨["default", "destructive", "warning", "success"], ["md"],
              "This is an alert message", ["dismissible"]⟩)]

/-- `interface ComponentConfig`; the `props` record is an ordered
association list, mirroring JS object key insertion order. -/
structure ComponentConfig where
  type : String
  variant : String
  size : String
  text : String
  props : List (String × Bool)
deriving DecidableEq

/-- The initial `useState` value of `ComponentGenerator`. -/
def initialComponent : ComponentConfig :=
  ⟨"button", "primary", "md", "Click me", []⟩

/-- `Object.entries(component.props).filter(([_, v]) => v).map(([k, _]) => k)
.join(' ')`. -/
def propsString (props : List (String × Bool)) : String :=
  joinSep " " ((props.filter fun p => p.2).map fun p => p.1)

/-- `generateComponentCode` (`ComponentGenerator.tsx`, lines 89–133). -/
def generateComponentCode (c : ComponentConfig) : String :=
  let props := propsString c.props
  match c.type with
  | "button" =>
    "<Button variant=\"" ++ c.variant ++ "\" size=\"" ++ c.size ++ "\" " ++
      props ++ ">\n  " ++ c.text ++ "\n</Button>"
  | "card" =>
    "<Card className=\"" ++ (if c.size = "lg" then "p-6" else "p-4") ++
      "\" " ++ props ++ ">\n  <CardHeader>\n    <CardTitle>" ++ c.text ++
      "</CardTitle>\n  </CardHeader>\n  <CardContent>\n    " ++
      "Card content goes here...\n  </CardContent>\n</Card>"
  | "input" =>
    "<Input \n  placeholder=\"" ++ c.text ++ "\"\n  size=\"" ++ c.size ++
      "\"\n  " ++ props ++ "\n/>"
  | "badge" =>
    "<Badge variant=\"" ++ c.variant ++ "\" " ++ props ++ ">\n  " ++ c.text ++
      "\n</Badge>"
  | "alert" =>
    "<Alert variant=\"" ++ c.variant ++ "\" " ++ props ++
      ">\n  <AlertDescription>\n    " ++ c.text ++
      "\n  </AlertDescription>\n</Alert>"
  | _ => ""

/-- Truthiness of `component.props.<name>`: a missing key is `undefined`,
hence falsy. -/
def getProp (props : List (String × Bool)) (name : String) : Bool :=
  (props.lookup name).getD false

/-- String interpolation of a lookup-table hit: a key outside the table is
`undefined` and stringifies to `"undefined"` inside a template literal. -/
def lookupStr (tbl : List (String × String)) (k : String) : String :=
  match tbl.lookup k with
  | some v => v
  | none => "undefined"

/-- Rendering description produced by `renderPreview`: one constructor per
JSX element shape of the five branches. -/
inductive Preview where
  | buttonEl (className : String) (disabled : Bool) (label : String)
  | cardEl (className : String) (title : String) (body : String)
  | inputEl (className : String) (placeholder : String) (disabled : Bool)
  | badgeEl (className : String) (label : String)
  | alertEl (className : String) (message : String) (dismissible : Bool)
deriving DecidableEq

def buttonVariants : List (String × String) :=
  [("primary", "bg-primary text-primary-foreground hover:bg-primary/90"),
   ("secondary", "bg-secondary text-secondary-foreground hover:bg-secondary/90"),
   ("outline", "border border-border bg-background hover:bg-accent"),
   ("destructive", "bg-destructive text-destructive-foreground hover:bg-destructive/90")]

def buttonSizes : List (String × String) :=
  [("sm", "px-3 py-1.5 text-sm"), ("md", "px-4 py-2"), ("lg", "px-6 py-3 text-lg")]

def cardSizes : List (String × String) :=
  [("sm", "p-3"), ("md", "p-4"), ("lg", "p-6")]

def inputSizes : List (String × String) :=
  [("sm", "px-2 py-1 text-sm"), ("md", "px-3 py-2"), ("lg", "px-4 py-3 text-lg")]

def badgeVariants : List (String × String) :=
  [("default", "bg-primary text-primary-foreground"),
   ("secondary", "bg-secondary text-secondary-foreground"),
   ("destructive", "bg-destructive text-destructive-foreground"),
   ("outline", "border border-border text-foreground")]

def badgeSizes : List (String × String) :=
  [("sm", "px-2 py-0.5 text-xs"), ("md", "px-2.5 py-0.5 text-sm"), ("lg", "px-3 py-1")]

def alertVariants : List (String × String) :=
  [("default", "bg-accent text-accent-foreground border-border"),
   ("destructive", "bg-destructive/10 text-destructive border-destructive/20"),
   ("warning", "bg-yellow-50 text-yellow-800 border-yellow-200"),
   ("success", "bg-green-50 text-green-800 border-green-200")]

def baseClasses : String := "rounded-lg transition-all"

/-- `renderPreview` (`ComponentGenerator.tsx`, lines 141–230), as a
rendering description; the `default` branch returns `null`, i.e. `none`. -/
def renderPreview (c : ComponentConfig) : Option Preview :=
  match c.type with
  | "button" => some (.buttonEl
      (baseClasses ++ " " ++ lookupStr buttonVariants c.variant ++ " " ++
        lookupStr buttonSizes c.size ++ " " ++
        (if getProp c.props "disabled" then "opacity-50 cursor-not-allowed" else ""))
      (getProp c.props "disabled")
      (if getProp c.props "loading" then "Loading..." else c.text))
  | "card" => some (.cardEl
      (baseClasses ++ " border border-border bg-card " ++
        lookupStr cardSizes c.size ++ " " ++
        (if getProp c.props "hover" then "hover:shadow-md" else "") ++ " " ++
        (if getProp c.props "shadow" then "shadow-sm" else ""))
      c.text "This is a sample card component with customizable content.")
  | "input" => some (.inputEl
      (baseClasses ++ " border border-border bg-background " ++
        lookupStr inputSizes c.size ++ " " ++
        (if getProp c.props "error" then "border-destructive" else "") ++ " " ++
        (if getProp c.props "disabled" then "opacity-50 cursor-not-allowed" else ""))
      c.text (getProp c.props "disabled"))
  | "badge" => some (.badgeEl
      ("inline-flex items-center " ++ baseClasses ++ " " ++
        lookupStr badgeVariants c.variant ++ " " ++
        lookupStr badgeSizes c.size ++ " " ++
        (if getProp c.props "rounded" then "rounded-full" else ""))
      c.text)
  | "alert" => some (.alertEl
      (baseClasses ++ " border p-4 " ++ lookupStr alertVariants c.variant)
      c.text (getProp c.props "dismissible"))
  | _ => none

/-- JS object update `{ ...obj, [name]: v }`: an existing key keeps its
original position and gets the new value, a new key is appended. -/
def setKey : List (String × Bool) → String → Bool → List (String × Bool)
  | [], n, v => [(n, v)]
  | (k, w) :: rest, n, v =>
    if k = n then (k, v) :: rest else (k, w) :: setKey rest n v

/-- `updateProp` (`ComponentGenerator.tsx`, lines 79–87). -/
def updateProp (c : ComponentConfig) (propName : String) (value : Bool) :
    ComponentConfig :=
  { c with props := setKey c.props propName value }

/-- One `updateComponent(field, value)` call per mutable field. -/
def updateType (c : ComponentConfig) (t : String) : ComponentConfig :=
  { c with type := t }

def updateVariant (c : ComponentConfig) (v : String) : ComponentConfig :=
  { c with variant := v }

def updateSize (c : ComponentConfig) (s : String) : ComponentConfig :=
  { c with size := s }

def updateText (c : ComponentConfig) (t : String) : ComponentConfig :=
  { c with text := t }

def updateProps (c : ComponentConfig) (p : List (String × Bool)) :
    ComponentConfig :=
  { c with props := p }

/-- The type-select `onChange` handler (`ComponentGenerator.tsx`, lines
242–260): look up the registry entry for the chosen type, then issue the
five sequential `updateComponent` calls.  A type outside the registry would
dereference `undefined` and throw, hence `Option`; the select only ever
offers registry keys.  `template.variants[0]` is modeled by `getD 0`; every
registry entry has non-empty `variants` and `sizes`, so the fallback is
never consulted. -/
def switchComponentType (c : ComponentConfig) (t : String) :
    Option ComponentConfig :=
  (componentTemplates.lookup t).map fun tpl =>
    updateProps
      (updateText
        (updateSize
          (updateVariant (updateType c t) (tpl.variants.getD 0 ""))
          (tpl.sizes.getD 0 ""))
        tpl.defaultText)
      []

/-! ### Shared helper lemmas -/

theorem setKey_lookup_self (l : List (String × Bool)) (n : String) (v : Bool) :
    (setKey l n v).lookup n = some v := by
  induction l with
  | nil => simp [setKey]
  | cons hd tl ih =>
    obtain ⟨k, w⟩ := hd
    by_cases hk : k = n
    · subst hk; simp [setKey]
    · have hnk : (n == k) = false := beq_eq_false_iff_ne.mpr (Ne.symm hk)
      simp [setKey, hk, List.lookup, hnk, ih]

theorem setKey_lookup_other (l : List (String × Bool)) (n : String) (v : Bool)
    (q : String) (h : q ≠ n) : (setKey l n v).lookup q = l.lookup q := by
  have hqn : (q == n) = false := beq_eq_false_iff_ne.mpr h
  induction l with
  | nil => simp [setKey, List.lookup, hqn]
  | cons hd tl ih =>
    obtain ⟨k, w⟩ := hd
    by_cases hk : k = n
    · subst hk; simp [setKey, List.lookup, hqn]
    · by_cases hq : q = k
      · subst hq; simp [setKey, hk, List.lookup]
      · have hqk : (q == k) = false := beq_eq_false_iff_ne.mpr hq
        simp [setKey, hk, List.lookup, hqk, ih]

theorem mem_trueNames_iff (props : List (String × Bool)) (n : String) :
    n ∈ (props.filter fun p => p.2).map Prod.fst ↔ (n, true) ∈ props := by
  constructor
  · intro h
    obtain ⟨⟨a, b⟩, hab, rfl⟩ := List.mem_map.mp h
    obtain ⟨hmem, hb⟩ := List.mem_filter.mp hab
    cases b with
    | false => simp at hb
    | true => exact hmem
  · intro h
    exact List.mem_map.mpr ⟨(n, true), List.mem_filter.mpr ⟨h, rfl⟩, rfl⟩

theorem falseName_not_trueName (props : List (String × Bool)) (n : String)
    (hnd : (props.map Prod.fst).Nodup) (h : (n, false) ∈ props) :
    n ∉ (props.filter fun p => p.2).map Prod.fst := by
  rw [mem_trueNames_iff]
  intro htrue
  induction props with
  | nil => simp at h
  | cons hd tl ih =>
    obtain ⟨hhd, htl⟩ := List.nodup_cons.mp hnd
    rcases List.mem_cons.mp h with hfh | hft
    · rcases List.mem_cons.mp htrue with hth | htt
      · have h2 : hd.2 = false := by rw [← hfh]
        have h3 : hd.2 = true := by rw [← hth]
        rw [h2] at h3
        simp at h3
      · have hk : hd.1 = n := by rw [← hfh]
        apply hhd
        rw [hk]
        exact List.mem_map_of_mem Prod.fst htt
    · rcases List.mem_cons.mp htrue with hth | htt
      · have hk : hd.1 = n := by rw [← hth]
        apply hhd
        rw [hk]
        exact List.mem_map_of_mem Prod.fst hft
      · exact ih htl hft htt

theorem concatList_map_concatList {α : Type} (g : α → List String)
    (l : List α) :
    concatList (l.map fun x => concatList (g x)) = concatList (l.flatMap g) := by
  induction l with
  | nil => rfl
  | cons a rest ih =>
    simp only [List.map_cons, List.flatMap_cons, concatList, concatList_append, ih]

theorem concatList_map_triple {α : Type} (f g h : α → String) (l : List α) :
    concatList (l.map fun x => f x ++ g x ++ h x) =
      concatList (l.flatMap fun x => [f x, g x, h x]) := by
  induction l with
  | nil => rfl
  | cons a rest ih =>
    simp only [List.map_cons, List.flatMap_cons, concatList, ih, List.cons_append,
      List.nil_append]
    simp [strAppend_assoc, List.flatMap]

/-! ### Claim theorems -/

/-- C1: for every hue in `[0, 360)` and saturation in `[0, 100]`,
`generateColorShade` returns exactly the ten step keys 50..900; in ascending
step order the lightness components are exactly 95, 90, 80, 70, 60, 50, 40,
30, 20, 10 percent and the saturation components are `max (s−40) 10`,
`max (s−30) 15`, `max (s−20) 20`, `max (s−10) 25`, `s`, `s`, `s`,
`min (s+10) 100`, `min (s+20) 100`, `min (s+30) 100`. -/
theorem generateColorShade_spec (h s : Int) (hh0 : 0 ≤ h) (hh1 : h < 360)
    (hs0 : 0 ≤ s) (hs1 : s ≤ 100) :
    (generateColorShade h s).entries =
      [("50", hslString h (max (s - 40) 10) 95),
       ("100", hslString h (max (s - 30) 15) 90),
       ("200", hslString h (max (s - 20) 20) 80),
       ("300", hslString h (max (s - 10) 25) 70),
       ("400", hslString h s 60),
       ("500", hslString h s 50),
       ("600", hslString h s 40),
       ("700", hslString h (min (s + 10) 100) 30),
       ("800", hslString h (min (s + 20) 100) 20),
       ("900", hslString h (min (s + 30) 100) 10)] ∧
    (generateColorShade h s).entries.map Prod.fst =
      ["50", "100", "200", "300", "400", "500", "600", "700", "800", "900"] ∧
    (generateColorShade h s).entries.length = 10 := by
  refine ⟨?_, rfl, rfl⟩
  simp only [generateColorShade, ColorShade.entries, hslString, List.cons.injEq,
    Prod.mk.injEq, and_true, true_and]
  and_intros <;> first
    | rfl
    | (apply strEq_of_data; simp [strData_append]; decide)

theorem generateColorShade_spec_witness :
    (0 : Int) ≤ 200 ∧ (200 : Int) < 360 ∧ (0 : Int) ≤ 70 ∧ (70 : Int) ≤ 100 ∧
    (generateColorShade 200 70).entries.map Prod.fst =
      ["50", "100", "200", "300", "400", "500", "600", "700", "800", "900"] :=
  ⟨by decide, by decide, by decide, by decide,
   (generateColorShade_spec 200 70 (by decide) (by decide) (by decide)
     (by decide)).2.1⟩

/-- C3: for every primary hue drawn, `generateRandomPalette` returns exactly
the seven role names primary, secondary, accent, neutral, success, warning,
error in that order, each bound to a ten-step shade; the secondary shade is
built from hue `(p + 180) % 360` at saturation 60 and the accent shade from
hue `(p + 120) % 360` at saturation 80 (visible in their step-500 color
strings), the primary shade from `p` at saturation 70, and the fixed roles
use hue 0/sat 5 (neutral), hue 120/sat 60 (success), hue 45/sat 80
(warning) and hue 0/sat 70 (error). -/
theorem generateRandomPalette_spec (p : Int) (h0 : 0 ≤ p) (h1 : p < 360) :
    (generateRandomPalette p).entries.map Prod.fst =
      ["primary", "secondary", "accent", "neutral", "success", "warning",
       "error"] ∧
    (∀ e ∈ (generateRandomPalette p).entries, e.2.entries.length = 10) ∧
    (generateRandomPalette p).primary = generateColorShade p 70 ∧
    (generateRandomPalette p).secondary =
      generateColorShade ((p + 180) % 360) 60 ∧
    (generateRandomPalette p).accent = generateColorShade ((p + 120) % 360) 80 ∧
    (generateRandomPalette p).neutral = generateColorShade 0 5 ∧
    (generateRandomPalette p).success = generateColorShade 120 60 ∧
    (generateRandomPalette p).warning = generateColorShade 45 80 ∧
    (generateRandomPalette p).error = generateColorShade 0 70 ∧
    (generateRandomPalette p).secondary.c500 =
      hslString ((p + 180) % 360) 60 50 ∧
    (generateRandomPalette p).accent.c500 = hslString ((p + 120) % 360) 80 50 := by
  refine ⟨rfl, ?_, rfl, rfl, rfl, rfl, rfl, rfl, rfl, ?_, ?_⟩
  · intro e he
    simp only [generateRandomPalette, ColorPalette.entries, List.mem_cons,
      List.not_mem_nil, or_false] at he
    rcases he with rfl | rfl | rfl | rfl | rfl | rfl | rfl <;> rfl
  · apply strEq_of_data; simp [generateRandomPalette, generateColorShade,
      hslString, strData_append]; decide
  · apply strEq_of_data; simp [generateRandomPalette, generateColorShade,
      hslString, strData_append]; decide

theorem generateRandomPalette_spec_witness :
    (0 : Int) ≤ 37 ∧ (37 : Int) < 360 ∧
    (generateRandomPalette 37).entries.map Prod.fst =
      ["primary", "secondary", "accent", "neutral", "success", "warning",
       "error"] ∧
    (generateRandomPalette 37).secondary.c500 =
      hslString ((37 + 180) % 360) 60 50 :=
  ⟨by decide, by decide,
   (generateRandomPalette_spec 37 (by decide) (by decide)).1,
   (generateRandomPalette_spec 37 (by decide)
     (by decide)).2.2.2.2.2.2.2.2.2.1⟩

/-- C8: every exporter is deterministic — each of the five export functions
is a pure function of the `DesignSystem` record alone (in the embedding the
randomness of the generator side had to be made an explicit parameter, while
the exporters needed none), so calling one twice on the unmodified record
yields identical text. -/
theorem exporters_deterministic (ds : DesignSystem) :
    generateFigmaVariables ds = generateFigmaVariables ds ∧
    generateCSS ds = generateCSS ds ∧
    generateTailwindConfig ds = generateTailwindConfig ds ∧
    generateSCSSVariables ds = generateSCSSVariables ds ∧
    generateTokensStudio ds = generateTokensStudio ds :=
  ⟨rfl, rfl, rfl, rfl, rfl⟩

/-- C9: for every configuration whose `type` is none of the five known
component kinds, `renderPreview` renders nothing (`none`), mirroring the
empty-string fallback of `generateComponentCode`. -/
theorem renderPreview_unknown_type (c : ComponentConfig)
    (h : c.type ∉ ["button", "card", "input", "badge", "alert"]) :
    renderPreview c = none := by
  unfold renderPreview
  split <;> first | rfl | (exfalso; apply h; simp_all)

theorem renderPreview_unknown_type_witness :
    ("tooltip" : String) ∉ ["button", "card", "input", "badge", "alert"] ∧
    renderPreview ⟨"tooltip", "primary", "md", "Hi", []⟩ = none :=
  ⟨by decide,
   renderPreview_unknown_type ⟨"tooltip", "primary", "md", "Hi", []⟩ (by decide)⟩

/-- C10: `updateProp` is a frame-preserving point update: it leaves `type`,
`variant`, `size` and `text` untouched, binds the named prop to the new
value, and leaves the binding of every other prop name unchanged. -/
theorem updateProp_frame (c : ComponentConfig) (p : String) (v : Bool) :
    (updateProp c p v).type = c.type ∧
    (updateProp c p v).variant = c.variant ∧
    (updateProp c p v).size = c.size ∧
    (updateProp c p v).text = c.text ∧
    (updateProp c p v).props.lookup p = some v ∧
    (∀ q : String, q ≠ p → (updateProp c p v).props.lookup q = c.props.lookup q) :=
  ⟨rfl, rfl, rfl, rfl, setKey_lookup_self c.props p v,
   fun q hq => setKey_lookup_other c.props p v q hq⟩

theorem updateProp_frame_witness :
    (updateProp ⟨"button", "primary", "md", "Click me", [("loading", true)]⟩
      "disabled" true).props.lookup "loading" = some true ∧
    (updateProp ⟨"button", "primary", "md", "Click me", [("loading", true)]⟩
      "disabled" true).props.lookup "disabled" = some true := by
  have h := updateProp_frame
    ⟨"button", "primary", "md", "Click me", [("loading", true)]⟩ "disabled" true
  exact ⟨(h.2.2.2.2.2 "loading" (by decide)).trans (by decide), h.2.2.2.2.1⟩

/-- C6: switching the selected component's `type` to any of the five
registry kinds resets `variant` to the first declared variant of the new
kind, `size` to its first declared size, `text` to its default text and
`props` to the empty mapping; in particular the resulting `variant` and
`size` are members of the registry entry for the new current `type`. -/
theorem switchComponentType_resets (c : ComponentConfig) (t : String)
    (h : t ∈ ["button", "card", "input", "badge", "alert"]) :
    ∃ tpl : ComponentTemplate, componentTemplates.lookup t = some tpl ∧
      switchComponentType c t = some
        ⟨t, tpl.variants.getD 0 "", tpl.sizes.getD 0 "", tpl.defaultText, []⟩ ∧
      tpl.variants.getD 0 "" ∈ tpl.variants ∧
      tpl.sizes.getD 0 "" ∈ tpl.sizes := by
  fin_cases h <;> exact ⟨_, rfl, rfl, by decide, by decide⟩

theorem switchComponentType_resets_witness :
    ("card" : String) ∈ ["button", "card", "input", "badge", "alert"] ∧
    switchComponentType initialComponent "card" =
      some ⟨"card", "default", "sm", "Card Title", []⟩ := by
  refine ⟨by decide, ?_⟩
  obtain ⟨tpl, hlook, hswitch, -, -⟩ :=
    switchComponentType_resets initialComponent "card" (by decide)
  rw [hswitch]
  have hc : componentTemplates.lookup "card" =
      some (⟨["default", "outlined"], ["sm", "md", "lg"], "Card Title",
        ["shadow", "hover"]⟩ : ComponentTemplate) := by decide
  have htpl : tpl = ⟨["default", "outlined"], ["sm", "md", "lg"], "Card Title",
      ["shadow", "hover"]⟩ := Option.some_inj.mp (hlook.symm.trans hc)
  subst htpl
  rfl

/-- C2: in all five export formats the spacing entry at 0-based index `i`
is exported under key `i + 1` while the radius entry at 0-based index `i`
is exported under key `i`: the indexing of the two scales is asymmetric in
the Figma variables (`spacing/<i+1>` vs `radius/<i>`), the CSS variables
(`--spacing-<i+1>` vs `--radius-<i>`), the Tailwind config (spacing object
key `<i+1>` vs borderRadius object key `<i>`), the SCSS variables
(`$spacing-<i+1>` vs `$border-radius-<i>`), and the Tokens Studio file
(`global.spacing.<i+1>` vs `global.borderRadius.<i>`). -/
theorem export_spacing_radius_indexing (ds : DesignSystem) :
    (∀ i (h : i < ds.spacing.length),
      strContains (generateFigmaVariables ds)
        (jsonStr ("spacing/" ++ toString (i + 1)) ++ ": " ++
          jsonStr (ds.spacing.get ⟨i, h⟩)) ∧
      strContains (generateCSS ds)
        ("  --spacing-" ++ toString (i + 1) ++ ": " ++
          ds.spacing.get ⟨i, h⟩ ++ ";\n") ∧
      strContains (generateTailwindConfig ds)
        (jsonStr (toString (i + 1)) ++ ": " ++ jsonStr (ds.spacing.get ⟨i, h⟩)) ∧
      strContains (generateSCSSVariables ds)
        ("$spacing-" ++ toString (i + 1) ++ ": " ++
          ds.spacing.get ⟨i, h⟩ ++ ";\n") ∧
      strContains (generateTokensStudio ds)
        (jsonStr (toString (i + 1)) ++ ": " ++
          jsonObj 6 [("value", jsonStr (ds.spacing.get ⟨i, h⟩)),
                     ("type", jsonStr "spacing")])) ∧
    (∀ i (h : i < ds.borderRadius.length),
      strContains (generateFigmaVariables ds)
        (jsonStr ("radius/" ++ toString i) ++ ": " ++
          jsonStr (ds.borderRadius.get ⟨i, h⟩)) ∧
      strContains (generateCSS ds)
        ("  --radius-" ++ toString i ++ ": " ++
          ds.borderRadius.get ⟨i, h⟩ ++ ";\n") ∧
      strContains (generateTailwindConfig ds)
        (jsonStr (toString i) ++ ": " ++ jsonStr (ds.borderRadius.get ⟨i, h⟩)) ∧
      strContains (generateSCSSVariables ds)
        ("$border-radius-" ++ toString i ++ ": " ++
          ds.borderRadius.get ⟨i, h⟩ ++ ";\n") ∧
      strContains (generateTokensStudio ds)
        (jsonStr (toString i) ++ ": " ++
          jsonObj 6 [("value", jsonStr (ds.borderRadius.get ⟨i, h⟩)),
                     ("type", jsonStr "borderRadius")])) := by
  constructor
  · intro i h
    refine ⟨?_, ?_, ?_, ?_, ?_⟩
    · have hmem : ("spacing/" ++ toString (i + 1), ds.spacing.get ⟨i, h⟩) ∈
          figmaEntries ds := by
        unfold figmaEntries
        refine List.mem_append_left _
          (List.mem_append_left _ (List.mem_append_right _ ?_))
        have := mem_mapIdx (fun i v => ("spacing/" ++ toString (i + 1), v))
          ds.spacing 0 i h
        simpa using this
      exact strContains_jsonField 0
        (List.mem_map_of_mem (fun p => (p.1, jsonStr p.2)) hmem)
    · unfold generateCSS
      refine strContains_appL _ (strContains_appL _
        (strContains_appL _ (strContains_appR _ ?_)))
      apply strContains_concatList
      have := mem_mapIdx
        (fun i v => "  --spacing-" ++ toString (i + 1) ++ ": " ++ v ++ ";\n")
        ds.spacing 0 i h
      simpa using this
    · unfold generateTailwindConfig
      have h1 : strContains (jsonObj 6 (tailwindSpacingFields ds))
          (jsonStr (toString (i + 1)) ++ ": " ++
            jsonStr (ds.spacing.get ⟨i, h⟩)) := by
        apply strContains_jsonField
        unfold tailwindSpacingFields
        have := mem_mapIdx (fun i v => (toString (i + 1), jsonStr v))
          ds.spacing 0 i h
        simpa using this
      have hm2 : ("spacing", jsonObj 6 (tailwindSpacingFields ds)) ∈
          tailwindExtendFields ds := by unfold tailwindExtendFields; simp
      have hm3 : ("extend", jsonObj 4 (tailwindExtendFields ds)) ∈
          [("extend", jsonObj 4 (tailwindExtendFields ds))] := by simp
      have hm4 : ("theme", jsonObj 2 [("extend", jsonObj 4 (tailwindExtendFields ds))]) ∈
          [("theme", jsonObj 2 [("extend", jsonObj 4 (tailwindExtendFields ds))])] := by
        simp
      exact strContains_trans (strContains_jsonValue 0 hm4)
        (strContains_trans (strContains_jsonValue 2 hm3)
          (strContains_trans (strContains_jsonValue 4 hm2) h1))
    · unfold generateSCSSVariables
      refine strContains_appL _ (strContains_appL _ (strContains_appR _ ?_))
      apply strContains_concatList
      have := mem_mapIdx
        (fun i v => "$spacing-" ++ toString (i + 1) ++ ": " ++ v ++ ";\n")
        ds.spacing 0 i h
      simpa using this
    · unfold generateTokensStudio
      have h1 : strContains (jsonObj 4 (tokensSpacingFields ds))
          (jsonStr (toString (i + 1)) ++ ": " ++
            jsonObj 6 [("value", jsonStr (ds.spacing.get ⟨i, h⟩)),
                       ("type", jsonStr "spacing")]) := by
        apply strContains_jsonField
        unfold tokensSpacingFields
        have := mem_mapIdx (fun i v =>
          (toString (i + 1),
           jsonObj 6 [("value", jsonStr v), ("type", jsonStr "spacing")]))
          ds.spacing 0 i h
        simpa using this
      have hm2 : ("spacing", jsonObj 4 (tokensSpacingFields ds)) ∈
          tokensGlobalFields ds := by unfold tokensGlobalFields; simp
      have hm3 : ("global", jsonObj 2 (tokensGlobalFields ds)) ∈
          [("global", jsonObj 2 (tokensGlobalFields ds))] := by simp
      exact strContains_trans (strContains_jsonValue 0 hm3)
        (strContains_trans (strContains_jsonValue 2 hm2) h1)
  · intro i h
    refine ⟨?_, ?_, ?_, ?_, ?_⟩
    · have hmem : ("radius/" ++ toString i, ds.borderRadius.get ⟨i, h⟩) ∈
          figmaEntries ds := by
        unfold figmaEntries
        refine List.mem_append_left _ (List.mem_append_right _ ?_)
        have := mem_mapIdx (fun i v => ("radius/" ++ toString i, v))
          ds.borderRadius 0 i h
        simpa using this
      exact strContains_jsonField 0
        (List.mem_map_of_mem (fun p => (p.1, jsonStr p.2)) hmem)
    · unfold generateCSS
      refine strContains_appL _ (strContains_appL _ (strContains_appR _ ?_))
      apply strContains_concatList
      have := mem_mapIdx
        (fun i v => "  --radius-" ++ toString i ++ ": " ++ v ++ ";\n")
        ds.borderRadius 0 i h
      simpa using this
    · unfold generateTailwindConfig
      have h1 : strContains (jsonObj 6 (tailwindRadiusFields ds))
          (jsonStr (toString i) ++ ": " ++
            jsonStr (ds.borderRadius.get ⟨i, h⟩)) := by
        apply strContains_jsonField
        unfold tailwindRadiusFields
        have := mem_mapIdx (fun i v => (toString i, jsonStr v))
          ds.borderRadius 0 i h
        simpa using this
      have hm2 : ("borderRadius", jsonObj 6 (tailwindRadiusFields ds)) ∈
          tailwindExtendFields ds := by unfold tailwindExtendFields; simp
      have hm3 : ("extend", jsonObj 4 (tailwindExtendFields ds)) ∈
          [("extend", jsonObj 4 (tailwindExtendFields ds))] := by simp
      have hm4 : ("theme", jsonObj 2 [("extend", jsonObj 4 (tailwindExtendFields ds))]) ∈
          [("theme", jsonObj 2 [("extend", jsonObj 4 (tailwindExtendFields ds))])] := by
        simp
      exact strContains_trans (strContains_jsonValue 0 hm4)
        (strContains_trans (strContains_jsonValue 2 hm3)
          (strContains_trans (strContains_jsonValue 4 hm2) h1))
    · unfold generateSCSSVariables
      refine strContains_appR _ ?_
      apply strContains_concatList
      have := mem_mapIdx
        (fun i v => "$border-radius-" ++ toString i ++ ": " ++ v ++ ";\n")
        ds.borderRadius 0 i h
      simpa using this
    · unfold generateTokensStudio
      have h1 : strContains (jsonObj 4 (tokensRadiusFields ds))
          (jsonStr (toString i) ++ ": " ++
            jsonObj 6 [("value", jsonStr (ds.borderRadius.get ⟨i, h⟩)),
                       ("type", jsonStr "borderRadius")]) := by
        apply strContains_jsonField
        unfold tokensRadiusFields
        have := mem_mapIdx (fun i v =>
          (toString i,
           jsonObj 6 [("value", jsonStr v), ("type", jsonStr "borderRadius")]))
          ds.borderRadius 0 i h
        simpa using this
      have hm2 : ("borderRadius", jsonObj 4 (tokensRadiusFields ds)) ∈
          tokensGlobalFields ds := by unfold tokensGlobalFields; simp
      have hm3 : ("global", jsonObj 2 (tokensGlobalFields ds)) ∈
          [("global", jsonObj 2 (tokensGlobalFields ds))] := by simp
      exact strContains_trans (strContains_jsonValue 0 hm3)
        (strContains_trans (strContains_jsonValue 2 hm2) h1)

theorem export_spacing_radius_indexing_witness :
    strContains (generateCSS (initialDesignSystem 200)) "  --spacing-1: 4px;\n" ∧
    strContains (generateCSS (initialDesignSystem 200)) "  --radius-0: 0px;\n" := by
  have hs := (export_spacing_radius_indexing (initialDesignSystem 200)).1 0
    (by decide)
  have hr := (export_spacing_radius_indexing (initialDesignSystem 200)).2 0
    (by decide)
  constructor
  · have heq : ("  --spacing-" ++ toString (0 + 1) ++ ": " ++
        (initialDesignSystem 200).spacing.get ⟨0, by decide⟩ ++ ";\n") =
        "  --spacing-1: 4px;\n" := by decide
    exact heq ▸ hs.2.1
  · have heq : ("  --radius-" ++ toString 0 ++ ": " ++
        (initialDesignSystem 200).borderRadius.get ⟨0, by decide⟩ ++ ";\n") =
        "  --radius-0: 0px;\n" := by decide
    exact heq ▸ hr.2.1

/-- The flat, ordered sequence of declaration lines the CSS exporter is
specified to emit: colors (role outer loop, step inner loop), then per
typography size the `--text`/`--leading`/`--weight` triple, then spacing in
array order (1-indexed keys), then radius in array order (0-indexed keys),
then the font family last. -/
def cssDeclarations (ds : DesignSystem) : List String :=
  (ds.colors.entries.flatMap fun p =>
    p.2.entries.map fun q => "  --" ++ p.1 ++ "-" ++ q.1 ++ ": " ++ q.2 ++ ";\n") ++
  (ds.typography.entries.flatMap fun p =>
    ["  --text-" ++ p.1 ++ ": " ++ p.2.size ++ ";\n",
     "  --leading-" ++ p.1 ++ ": " ++ p.2.lineHeight ++ ";\n",
     "  --weight-" ++ p.1 ++ ": " ++ p.2.weight ++ ";\n"]) ++
  mapIdx (fun i v => "  --spacing-" ++ toString (i + 1) ++ ": " ++ v ++ ";\n")
    0 ds.spacing ++
  mapIdx (fun i v => "  --radius-" ++ toString i ++ ": " ++ v ++ ";\n")
    0 ds.borderRadius ++
  ["  --font-family: " ++ ds.fontFamily ++ ";\n"]

set_option maxRecDepth 4000

/-- C7: the stylesheet-variable export is a single `:root` block whose body
is the concatenation of exactly the declaration lines of `cssDeclarations`
in that order — colors with role as the outer loop and step as the inner
loop, then the three typography declarations per size, then the 1-indexed
spacing lines, then the 0-indexed radius lines, and `--font-family` as the
last declaration before the closing brace. -/
theorem generateCSS_structure (ds : DesignSystem) :
    generateCSS ds = ":root \x7b\n" ++ concatList (cssDeclarations ds) ++ "\x7d\n" := by
  unfold generateCSS cssDeclarations
  rw [concatList_append, concatList_append, concatList_append, concatList_append,
    ← concatList_map_concatList, ← concatList_map_triple]
  simp only [concatList, strAppend_empty, strEmpty_append, strAppend_assoc]

/-- C4 counterexample: the claim says every one of the five type-specific
templates interpolates the variant, size and text values, but the card
template never emits the variant — at variant `outlined` the generated card
snippet does not contain `outlined`. -/
theorem generateComponentCode_card_drops_variant :
    ¬ strContains
      (generateComponentCode ⟨"card", "outlined", "md", "Card Title", []⟩)
      "outlined" := by
  rw [strContains_iff]; decide

/-- C4 (amended): each of the five known types has a fixed template shape
and an unrecognized type yields the empty string; the text is interpolated
by every template, but the variant value only by the button, badge and
alert templates, and the size value only by the button and input templates
(the card template merely selects a padding class from the size). -/
theorem generateComponentCode_templates (c : ComponentConfig) :
    (c.type ∉ ["button", "card", "input", "badge", "alert"] →
      generateComponentCode c = "") ∧
    (c.type ∈ ["button", "card", "input", "badge", "alert"] →
      strContains (generateComponentCode c) c.text) ∧
    (c.type ∈ ["button", "badge", "alert"] →
      strContains (generateComponentCode c) ("variant=\"" ++ c.variant ++ "\"")) ∧
    (c.type ∈ ["button", "input"] →
      strContains (generateComponentCode c) ("size=\"" ++ c.size ++ "\"")) := by
  refine ⟨?_, ?_, ?_, ?_⟩
  · intro h
    simp only [generateComponentCode]
    split <;> first | rfl | (exfalso; apply h; simp_all)
  · intro h
    simp only [List.mem_cons, List.not_mem_nil, or_false] at h
    rcases h with hty | hty | hty | hty | hty <;> simp only [generateComponentCode, hty]
    · exact strContains_appL _ (strContains_appR _ (strContains_self _))
    · exact strContains_appL _ (strContains_appL _
        (strContains_appR _ (strContains_self _)))
    · exact strContains_appL _ (strContains_appL _ (strContains_appL _
        (strContains_appL _ (strContains_appL _
          (strContains_appR _ (strContains_self _))))))
    · exact strContains_appL _ (strContains_appR _ (strContains_self _))
    · exact strContains_appL _ (strContains_appR _ (strContains_self _))
  · intro h
    simp only [List.mem_cons, List.not_mem_nil, or_false] at h
    rcases h with hty | hty | hty <;> simp only [generateComponentCode, hty]
    · refine ⟨"<Button ", " size=\"" ++ c.size ++ "\" " ++ propsString c.props ++
        ">\n  " ++ c.text ++ "\n</Button>", ?_⟩
      rw [show ("<Button variant=\"" : String) = "<Button " ++ "variant=\"" by decide,
        show ("\" size=\"" : String) = "\"" ++ " size=\"" by decide]
      simp only [strAppend_assoc]
    · refine ⟨"<Badge ", " " ++ propsString c.props ++ ">\n  " ++ c.text ++
        "\n</Badge>", ?_⟩
      rw [show ("<Badge variant=\"" : String) = "<Badge " ++ "variant=\"" by decide,
        show ("\" " : String) = "\"" ++ " " by decide]
      simp only [strAppend_assoc]
    · refine ⟨"<Alert ", " " ++ propsString c.props ++
        ">\n  <AlertDescription>\n    " ++ c.text ++
        "\n  </AlertDescription>\n</Alert>", ?_⟩
      rw [show ("<Alert variant=\"" : String) = "<Alert " ++ "variant=\"" by decide,
        show ("\" " : String) = "\"" ++ " " by decide]
      simp only [strAppend_assoc]
  · intro h
    simp only [List.mem_cons, List.not_mem_nil, or_false] at h
    rcases h with hty | hty <;> simp only [generateComponentCode, hty]
    · refine ⟨"<Button variant=\"" ++ c.variant ++ "\" ",
        " " ++ propsString c.props ++ ">\n  " ++ c.text ++ "\n</Button>", ?_⟩
      rw [show ("\" size=\"" : String) = "\" " ++ "size=\"" by decide]
      nth_rewrite 2 [show ("\" " : String) = "\"" ++ " " by decide]
      simp only [strAppend_assoc]
    · refine ⟨"<Input \n  placeholder=\"" ++ c.text ++ "\"\n  ",
        "\n  " ++ propsString c.props ++ "\n/>", ?_⟩
      rw [show ("\"\n  size=\"" : String) = "\"\n  " ++ "size=\"" by decide]
      nth_rewrite 2 [show ("\"\n  " : String) = "\"" ++ "\n  " by decide]
      simp only [strAppend_assoc]

theorem generateComponentCode_templates_witness :
    (("tooltip" : String) ∉ ["button", "card", "input", "badge", "alert"]) ∧
    generateComponentCode ⟨"tooltip", "primary", "md", "Hi", []⟩ = "" ∧
    (("badge" : String) ∈ ["button", "card", "input", "badge", "alert"]) ∧
    strContains (generateComponentCode ⟨"badge", "secondary", "sm", "New", []⟩)
      "New" :=
  ⟨by decide,
   (generateComponentCode_templates ⟨"tooltip", "primary", "md", "Hi", []⟩).1
     (by decide),
   by decide,
   (generateComponentCode_templates ⟨"badge", "secondary", "sm", "New", []⟩).2.1
     (by decide)⟩

/-- C5 counterexample: the claim says the snippet contains no name of a
prop whose value is false, but a false prop's name can still occur in the
snippet through another interpolated value — with text `loading data` and
`loading: false` the generated button snippet does contain `loading`. -/
theorem generateComponentCode_false_prop_name_occurs :
    (("loading", false) ∈
      (⟨"button", "primary", "md", "loading data",
        [("disabled", true), ("loading", false)]⟩ : ComponentConfig).props) ∧
    strContains
      (generateComponentCode ⟨"button", "primary", "md", "loading data",
        [("disabled", true), ("loading", false)]⟩)
      "loading" := by
  refine ⟨by decide, ?_⟩
  rw [strContains_iff]; decide

/-- C5 (amended): the props list interpolated into the snippet is exactly
the space-separated names of the props whose value is true, in the
iteration order of the props mapping; a name is in that list iff it is
bound to true, and (for distinct prop keys) the name of a false prop never
is — though it may still occur elsewhere in the snippet.  For the concrete
example config the output contains `variant="primary"`, `size="md"`,
`disabled` and `Click me`, and does not contain `loading`. -/
theorem generateComponentCode_props_spec (c : ComponentConfig) :
    (c.type ∈ ["button", "card", "input", "badge", "alert"] →
      strContains (generateComponentCode c) (propsString c.props)) ∧
    (∀ n : String,
      n ∈ (c.props.filter fun p => p.2).map Prod.fst ↔ (n, true) ∈ c.props) ∧
    ((c.props.map Prod.fst).Nodup → ∀ n : String, (n, false) ∈ c.props →
      n ∉ (c.props.filter fun p => p.2).map Prod.fst) ∧
    (strContains (generateComponentCode ⟨"button", "primary", "md", "Click me",
        [("disabled", true), ("loading", false)]⟩) "variant=\"primary\"" ∧
     strContains (generateComponentCode ⟨"button", "primary", "md", "Click me",
        [("disabled", true), ("loading", false)]⟩) "size=\"md\"" ∧
     strContains (generateComponentCode ⟨"button", "primary", "md", "Click me",
        [("disabled", true), ("loading", false)]⟩) "disabled" ∧
     strContains (generateComponentCode ⟨"button", "primary", "md", "Click me",
        [("disabled", true), ("loading", false)]⟩) "Click me" ∧
     ¬ strContains (generateComponentCode ⟨"button", "primary", "md", "Click me",
        [("disabled", true), ("loading", false)]⟩) "loading") := by
  refine ⟨?_, mem_trueNames_iff c.props,
    fun hnd n hf => falseName_not_trueName c.props n hnd hf,
    ?_, ?_, ?_, ?_, ?_⟩
  · intro h
    simp only [List.mem_cons, List.not_mem_nil, or_false] at h
    rcases h with hty | hty | hty | hty | hty <;> simp only [generateComponentCode, hty]
    · exact strContains_appL _ (strContains_appL _ (strContains_appL _
        (strContains_appR _ (strContains_self _))))
    · exact strContains_appL _ (strContains_appL _ (strContains_appL _
        (strContains_appL _ (strContains_appR _ (strContains_self _)))))
    · exact strContains_appL _ (strContains_appR _ (strContains_self _))
    · exact strContains_appL _ (strContains_appL _ (strContains_appL _
        (strContains_appR _ (strContains_self _))))
    · exact strContains_appL _ (strContains_appL _ (strContains_appL _
        (strContains_appR _ (strContains_self _))))
  · rw [strContains_iff]; decide
  · rw [strContains_iff]; decide
  · rw [strContains_iff]; decide
  · rw [strContains_iff]; decide
  · rw [strContains_iff]; decide

theorem generateComponentCode_props_spec_witness :
    (("button" : String) ∈ ["button", "card", "input", "badge", "alert"]) ∧
    strContains
      (generateComponentCode ⟨"button", "primary", "md", "Go",
        [("disabled", true), ("loading", false)]⟩)
      (propsString [("disabled", true), ("loading", false)]) ∧
    ((("disabled", true) :: [("loading", false)]).map
      (Prod.fst (α := String) (β := Bool))).Nodup ∧
    "loading" ∉ ((([("disabled", true), ("loading", false)] :
        List (String × Bool)).filter fun p => p.2).map Prod.fst) :=
  ⟨by decide,
   (generateComponentCode_props_spec ⟨"button", "primary", "md", "Go",
     [("disabled", true), ("loading", false)]⟩).1 (by decide),
   by decide,
   (generateComponentCode_props_spec ⟨"button", "primary", "md", "Go",
     [("disabled", true), ("loading", false)]⟩).2.2.1 (by decide) "loading"
     (by decide)⟩

end DesignStudio
